import Mathlib

/-!
Shallow embedding of the package-intake / ticket workflow of the
`packageManagement` Django repository (files `packages/models.py`,
`packages/serializers.py`, `packages/views.py`, `users/models.py`).

Conventions of the embedding:
* Database rows are Lean structures; the database is a `DB` structure of row
  lists.  Primary keys are `Nat`; Django model-instance comparison compares
  primary keys, so the embedding compares `id` fields.
* Monetary `Decimal` columns have `decimal_places=2`; they are embedded as
  `Int` numbers of hundredths (cents).  `round(value * Decimal(0.10), 2)` in
  Python rounds half-to-even (the default `Decimal` context), which on cents
  is `roundHalfEvenDiv10`.
* Nullable foreign keys are `Option`; a Django filter `field=None` on a
  non-nullable column matches nothing, which the embedding reproduces.
* Fallible handlers return the (possibly mutated) database together with
  `Option Err`; `none` is success.  Django runs in autocommit mode (the view
  uses no `transaction.atomic`), so each row write commits immediately and an
  exception raised later does not undo earlier writes — the embedding
  therefore threads the partially mutated state through the failure paths.
* `uuid`-generated codes and auto-assigned primary keys are oracles passed as
  arguments (`tn`, `tc`, `pid`, `tid`); the unique constraints on
  `tracking_number` and `ticket_code` are modelled as save-time failures.
-/

namespace PkgMgmt

/-- Embeds `packages.models.Branch`: `id` plus owning `company` foreign key. -/
structure Branch where
  id : Nat
  company : Nat
deriving DecidableEq, Repr

/-- Embeds `packages.models.Driver`: `id` plus `company` foreign key. -/
structure Driver where
  id : Nat
  company : Nat
deriving DecidableEq, Repr

/-- Embeds `packages.models.Vehicle`: `id`, `company` and `driver` foreign keys. -/
structure Vehicle where
  id : Nat
  company : Nat
  driver : Nat
deriving DecidableEq, Repr

/-- Embeds `users.models.Role`: a named role row. -/
structure Role where
  name : String
deriving DecidableEq, Repr

/-- Embeds `users.models.User` (fields the workflow reads): nullable `role`,
`company` and `branch` foreign keys, plus the `AbstractUser` flags. -/
structure User where
  id : Nat
  role : Option Role
  isSuperuser : Bool
  isAuthenticated : Bool
  company : Option Nat
  branch : Option Branch
deriving DecidableEq, Repr

/-- Embeds `packages.models.PackageStatus`: lookup row with audit field. -/
structure PackageStatusRow where
  id : Nat
  name : String
  updatedBy : Option Nat
deriving DecidableEq, Repr

/-- Value held by the `Package.status` column.  The model declares a
`CharField` (default `"pending"`), but the views assign a `PackageStatus`
row to it; the embedding keeps both shapes apart. -/
inductive StatusSlot where
  | strv (s : String)
  | refv (statusId : Nat)
deriving DecidableEq, Repr

/-- Embeds `packages.models.Package` (fields the workflow reads or writes). -/
structure Package where
  id : Nat
  trackingNumber : String
  value : Int
  shippingFee : Int
  status : StatusSlot
  senderAgent : Nat
  receiverAgent : Option Nat
  originBranch : Branch
  destinationBranch : Branch
  senderName : String
  senderPhone : String
  receiverName : String
  receiverPhone : String
deriving DecidableEq, Repr

/-- Embeds `packages.models.Ticket` (fields the workflow reads or writes). -/
structure Ticket where
  id : Nat
  ticketCode : String
  package : Nat
  driver : Nat
  vehicle : Nat
  branch : Branch
  company : Nat
  departureTime : Int
  amountPaid : Int
  status : String
deriving DecidableEq, Repr

/-- The persistent store: one list per table, plus the id counter used by
`get_or_create` for fresh `PackageStatus` rows. -/
structure DB where
  drivers : List Driver
  vehicles : List Vehicle
  packageStatuses : List PackageStatusRow
  packages : List Package
  tickets : List Ticket
  nextStatusId : Nat
deriving DecidableEq, Repr

/-- Error taxonomy as surfaced by the handlers: `permissionDenied` is
DRF `PermissionDenied` (403), `invalidInput` is `ValidationError` (400,
optionally field-keyed), `notFound` is `Http404` from `get_object`. -/
inductive Err where
  | permissionDenied (msg : String)
  | invalidInput (field : Option String) (msg : String)
  | notFound
deriving DecidableEq, Repr

/-- Embeds `round(value * Decimal(0.10), 2)` on a two-decimal `Decimal`
value, in cents: Python `round` on `Decimal` quantizes with the default
context rounding mode, half-to-even, so a value of `n` cents yields `n / 10`
rounded half-to-even.  `Int.fdiv` and `Int.fmod` give the floor quotient and
the remainder in `[0, 10)`. -/
def roundHalfEvenDiv10 (n : Int) : Int :=
  let q := Int.fdiv n 10
  let r := Int.fmod n 10
  if r < 5 then q
  else if 5 < r then q + 1
  else if q % 2 == 0 then q else q + 1

/-- ASCII lower-casing of one character, as Python `str.lower()` acts on the
ASCII role names used by the repository. -/
def lowerChar (c : Char) : Char :=
  if c.isUpper then Char.ofNat (c.toNat + 32) else c

/-- Embeds Python `str.lower()` (role names in this codebase are ASCII). -/
def strLower (s : String) : String := ⟨s.data.map lowerChar⟩

/-- Embeds `user.role and user.role.name.lower() == s` — the duck-typed role test
used throughout `packages/views.py`. -/
def roleIs (u : User) (s : String) : Bool :=
  match u.role with
  | some r => strLower r.name == s
  | none => false

/-- Embeds `PackageStatus.objects.get_or_create(name=name, defaults=dict(updated_by=u))`:
return the first row with that exact name, or insert a fresh one. -/
def getOrCreateStatus (db : DB) (u : User) (name : String) :
    PackageStatusRow × DB :=
  match db.packageStatuses.find? (fun r => r.name == name) with
  | some r => (r, db)
  | none =>
      let r : PackageStatusRow := ⟨db.nextStatusId, name, some u.id⟩
      (r, { db with packageStatuses := db.packageStatuses ++ [r],
                    nextStatusId := db.nextStatusId + 1 })

/-- Embeds `PackageViewSet.get_queryset` (packages/views.py lines 64-112): the
role-scoped package queryset.  Order of the checks is the source order:
agent, branch admin, company admin, system admin, else empty. -/
def visiblePackages (db : DB) (u : User) : List Package :=
  if ¬ u.isAuthenticated then []
  else if roleIs u "agent" then
    db.packages.filter (fun p =>
      p.senderAgent == u.id || p.receiverAgent == some u.id ||
        (match u.branch with
         | some b => p.destinationBranch.id == b.id
         | none => false))
  else if roleIs u "branch admin" then
    db.packages.filter (fun p =>
      (match u.branch with
       | some b => p.originBranch.id == b.id || p.destinationBranch.id == b.id
       | none => false))
  else if roleIs u "company admin" then
    db.packages.filter (fun p =>
      some p.originBranch.company == u.company ||
        some p.destinationBranch.company == u.company)
  else if roleIs u "system admin" then db.packages
  else []

/-- Embeds `TicketViewSet.get_queryset` (packages/views.py lines 343-354),
behind the `IsAuthenticated` permission of the viewset: superuser first, then
agent, branch admin, company admin, else empty. -/
def visibleTickets (db : DB) (u : User) : List Ticket :=
  if ¬ u.isAuthenticated then []
  else if u.isSuperuser then db.tickets
  else if roleIs u "agent" then
    db.tickets.filter (fun t => some t.company == u.company)
  else if roleIs u "branch admin" then
    db.tickets.filter (fun t =>
      (match u.branch with
       | some b => t.branch.id == b.id
       | none => false))
  else if roleIs u "company admin" then
    db.tickets.filter (fun t => some t.company == u.company)
  else []

/-- The intake request payload: the serializer-validated fields plus the raw
`request.data` extras the view reads itself.  `value = none` encodes a
declared value that the serializer `DecimalField` cannot parse;
`departureTime = none` a missing or non-ISO departure time.
`clientShippingFee` is a client-supplied `shipping_fee` value; the field is
`read_only` in `PackageSerializer` and overridden by `serializer.save`, so
intake never reads it. -/
structure RawIntake where
  senderName : String
  senderPhone : String
  receiverName : String
  receiverPhone : String
  destinationBranch : Option Branch
  value : Option Int
  driverId : Option Nat
  vehicleId : Option Nat
  departureTime : Option Int
  clientShippingFee : Option Int
deriving DecidableEq, Repr

/-- Embeds `PackageViewSet.create` and `perform_create` (packages/views.py lines
137-237) together with the serializer validation that precedes
`perform_create`.  Arguments `tn`/`tc` are the generated `PKG-`/`TCK-` codes,
`pid`/`tid` the auto primary keys, `now` the clock.  The two `.save()` calls
run in autocommit: a unique-constraint failure at the ticket insert leaves
the already-saved package in place (the broad `except` only re-raises a
`ValidationError` keyed `error`). -/
def intake (db : DB) (u : User) (r : RawIntake) (now : Int)
    (tn tc : String) (pid tid : Nat) : DB × Option Err :=
  if ¬ roleIs u "agent" then
    (db, some (.permissionDenied "Only agents can create packages."))
  else
    match r.value with
    | none => (db, some (.invalidInput (some "value") "A valid number is required."))
    | some v =>
      match r.destinationBranch with
      | none => (db, some (.invalidInput (some "destination_branch") "This field is required."))
      | some destBranch =>
        if r.senderName == "" || r.senderPhone == "" then
          (db, some (.invalidInput (some "sender_details") "Sender name and phone are required."))
        else if r.receiverName == "" || r.receiverPhone == "" then
          (db, some (.invalidInput (some "receiver_details") "Receiver name and phone are required."))
        else
          match u.company with
          | none =>
              (db, some (.invalidInput (some "destination_branch") "Destination branch must belong to your company."))
          | some c =>
            if destBranch.company ≠ c then
              (db, some (.invalidInput (some "destination_branch") "Destination branch must belong to your company."))
            else
              match r.driverId.bind (fun i => db.drivers.find? (fun d => d.id == i)) with
              | none => (db, some (.invalidInput (some "driver") "Driver is required."))
              | some driver =>
                if driver.company ≠ c then
                  (db, some (.invalidInput (some "driver") "Driver must belong to your company."))
                else
                  match r.vehicleId.bind (fun i => db.vehicles.find? (fun w => w.id == i)) with
                  | none => (db, some (.invalidInput (some "vehicle") "Vehicle is required."))
                  | some vehicle =>
                    if vehicle.company ≠ c then
                      (db, some (.invalidInput none "Vehicle must belong to your company."))
                    else
                      match r.departureTime with
                      | none => (db, some (.invalidInput (some "departure_time") "Departure time is required in valid ISO format."))
                      | some dep =>
                        if dep ≤ now then
                          (db, some (.invalidInput (some "departure_time") "Departure time must be in the future."))
                        else
                          match u.branch with
                          | none =>
                              ((getOrCreateStatus db u "Pending").2,
                               some (.invalidInput (some "error") "Failed to create package."))
                          | some b =>
                            if (getOrCreateStatus db u "Pending").2.packages.any
                                (fun p => p.trackingNumber == tn) then
                              ((getOrCreateStatus db u "Pending").2,
                               some (.invalidInput (some "error") "Failed to create package."))
                            else
                              if (getOrCreateStatus db u "Pending").2.tickets.any
                                  (fun t => t.ticketCode == tc) then
                                ({ (getOrCreateStatus db u "Pending").2 with
                                    packages := (getOrCreateStatus db u "Pending").2.packages ++
                                      [{ id := pid, trackingNumber := tn, value := v,
                                         shippingFee := roundHalfEvenDiv10 v,
                                         status := .refv (getOrCreateStatus db u "Pending").1.id,
                                         senderAgent := u.id, receiverAgent := none,
                                         originBranch := b, destinationBranch := destBranch,
                                         senderName := r.senderName, senderPhone := r.senderPhone,
                                         receiverName := r.receiverName,
                                         receiverPhone := r.receiverPhone }] },
                                 some (.invalidInput (some "error") "Failed to create package."))
                              else
                                ({ (getOrCreateStatus db u "Pending").2 with
                                    packages := (getOrCreateStatus db u "Pending").2.packages ++
                                      [{ id := pid, trackingNumber := tn, value := v,
                                         shippingFee := roundHalfEvenDiv10 v,
                                         status := .refv (getOrCreateStatus db u "Pending").1.id,
                                         senderAgent := u.id, receiverAgent := none,
                                         originBranch := b, destinationBranch := destBranch,
                                         senderName := r.senderName, senderPhone := r.senderPhone,
                                         receiverName := r.receiverName,
                                         receiverPhone := r.receiverPhone }],
                                    tickets := (getOrCreateStatus db u "Pending").2.tickets ++
                                      [{ id := tid, ticketCode := tc, package := pid,
                                         driver := driver.id, vehicle := vehicle.id,
                                         branch := b, company := c, departureTime := dep,
                                         amountPaid := roundHalfEvenDiv10 v,
                                         status := "sent" }] },
                                 none)

/-- Embeds `PackageViewSet.mark_delivered` (packages/views.py lines 251-286).
`self.get_object()` resolves `pk` against the role-scoped queryset
(`get_object_or_404`), then `get_agent` and the destination-branch check run;
on success the package gets the `Delivered` status row and
`receiver_agent = requester`, and the matching ticket (if any) gets status
`delivered`.  Updates by primary key are maps over the table. -/
def markDelivered (db : DB) (u : User) (pkId : Nat) : DB × Option Err :=
  match (visiblePackages db u).find? (fun p => p.id == pkId) with
  | none => (db, some .notFound)
  | some package =>
    if ¬ roleIs u "agent" then
      (db, some (.permissionDenied "Only agents can mark packages as delivered."))
    else
      match u.branch with
      | none =>
          (db, some (.permissionDenied "Only agents at the destination branch can mark packages as delivered."))
      | some b =>
        if package.destinationBranch.id ≠ b.id then
          (db, some (.permissionDenied "Only agents at the destination branch can mark packages as delivered."))
        else
          let dr := getOrCreateStatus db u "Delivered"
          let db1 := dr.2
          let pkg2 := { package with status := StatusSlot.refv dr.1.id,
                                     receiverAgent := some u.id }
          let pkgs2 := db1.packages.map (fun p => if p.id == pkId then pkg2 else p)
          let db2 := { db1 with packages := pkgs2 }
          match db2.tickets.find? (fun t => t.package == pkId) with
          | some t =>
              let tks2 := db2.tickets.map (fun x =>
                if x.id == t.id then { x with status := "delivered" } else x)
              ({ db2 with tickets := tks2 }, none)
          | none => (db2, none)

/-- Embeds `TicketViewSet.update_status` (packages/views.py lines 356-368).
`self.get_object()` resolves `pk` against the role-scoped ticket queryset;
`newStatus` is `request.data.get` of the status key (`none` when absent), and
must be one of `sent`, `received`, `delivered`. -/
def updateTicketStatus (db : DB) (u : User) (tkId : Nat)
    (newStatus : Option String) : DB × Option Err :=
  match (visibleTickets db u).find? (fun t => t.id == tkId) with
  | none => (db, some .notFound)
  | some _ =>
    if newStatus == some "sent" || newStatus == some "received" ||
        newStatus == some "delivered" then
      match newStatus with
      | some s =>
          let tks := db.tickets.map (fun t =>
            if t.id == tkId then { t with status := s } else t)
          ({ db with tickets := tks }, none)
      | none => (db, some (.invalidInput (some "status")
          "Status must be one of [sent, received, delivered]"))
    else
      (db, some (.invalidInput (some "status")
        "Status must be one of [sent, received, delivered]"))

/-- Modelled from the spec, section 4.4: the package-visibility rule table,
rows resolved in order (first match wins).  This definition follows the
words of the table — in particular its row [System admin / superuser: all] —
and is compared against `visiblePackages`, the embedding of the source. -/
def specVisiblePackages (db : DB) (u : User) : List Package :=
  if ¬ u.isAuthenticated then []
  else if roleIs u "agent" then
    db.packages.filter (fun p =>
      p.senderAgent == u.id || p.receiverAgent == some u.id ||
        (match u.branch with
         | some b => p.destinationBranch.id == b.id
         | none => false))
  else if roleIs u "branch admin" then
    db.packages.filter (fun p =>
      (match u.branch with
       | some b => p.originBranch.id == b.id || p.destinationBranch.id == b.id
       | none => false))
  else if roleIs u "company admin" then
    db.packages.filter (fun p =>
      some p.originBranch.company == u.company ||
        some p.destinationBranch.company == u.company)
  else if roleIs u "system admin" || u.isSuperuser then db.packages
  else []

/-- Modelled from the spec, section 4.4: the ticket-visibility rule table,
rows resolved in order; the agent row reads
[company == requester.branch.company]. -/
def specVisibleTickets (db : DB) (u : User) : List Ticket :=
  if ¬ u.isAuthenticated then []
  else if roleIs u "agent" then
    db.tickets.filter (fun t =>
      (match u.branch with
       | some b => t.company == b.company
       | none => false))
  else if roleIs u "branch admin" then
    db.tickets.filter (fun t =>
      (match u.branch with
       | some b => t.branch.id == b.id
       | none => false))
  else if roleIs u "company admin" then
    db.tickets.filter (fun t => some t.company == u.company)
  else if roleIs u "system admin" || u.isSuperuser then db.tickets
  else []

/-- States that no ticket in the store carries the status string `pending`. -/
def noPendingTickets (db : DB) : Prop := ∀ t ∈ db.tickets, t.status ≠ "pending"

/-! Helper lemmas about the embedded operations. -/

theorem getOrCreateStatus_tickets (db : DB) (u : User) (name : String) :
    (getOrCreateStatus db u name).2.tickets = db.tickets := by
  unfold getOrCreateStatus
  cases hfind : db.packageStatuses.find? (fun r => r.name == name) <;> simp [hfind]

theorem getOrCreateStatus_packages (db : DB) (u : User) (name : String) :
    (getOrCreateStatus db u name).2.packages = db.packages := by
  unfold getOrCreateStatus
  cases hfind : db.packageStatuses.find? (fun r => r.name == name) <;> simp [hfind]

theorem getOrCreateStatus_fst_name (db : DB) (u : User) (name : String) :
    (getOrCreateStatus db u name).1.name = name := by
  unfold getOrCreateStatus
  cases hfind : db.packageStatuses.find? (fun r => r.name == name) with
  | none => simp [hfind]
  | some r =>
      have h := List.find?_some hfind
      simpa [hfind] using h

theorem visiblePackages_subset (db : DB) (u : User) :
    ∀ p ∈ visiblePackages db u, p ∈ db.packages := by
  intro p hp
  unfold visiblePackages at hp
  split_ifs at hp <;>
    first
      | exact (List.mem_filter.mp hp).1
      | exact hp
      | exact absurd hp (List.not_mem_nil p)

theorem mem_id_eq {l : List Package}
    (hnd : (l.map Package.id).Nodup) {a b : Package}
    (ha : a ∈ l) (hb : b ∈ l) (h : a.id = b.id) : a = b :=
  List.inj_on_of_nodup_map hnd ha hb h

theorem markDelivered_success (db : DB) (u : User) (p : Package) (b : Branch)
    (hnd : (db.packages.map Package.id).Nodup)
    (hmem : p ∈ db.packages)
    (hauth : u.isAuthenticated = true)
    (hrole : roleIs u "agent" = true)
    (hbr : u.branch = some b)
    (hdest : p.destinationBranch.id = b.id) :
    (markDelivered db u p.id).2 = none ∧
    (markDelivered db u p.id).1.packages =
      db.packages.map (fun q =>
        if q.id == p.id then
          { q with status := StatusSlot.refv (getOrCreateStatus db u "Delivered").1.id,
                   receiverAgent := some u.id }
        else q) := by
  have hvis : p ∈ visiblePackages db u := by
    unfold visiblePackages
    simp only [hauth, hrole, not_true_eq_false, if_false, if_true, ite_true, ite_false]
    refine List.mem_filter.mpr ⟨hmem, ?_⟩
    simp [hbr, hdest]
  have hne : (visiblePackages db u).find? (fun q => q.id == p.id) ≠ none := by
    intro h
    rw [List.find?_eq_none] at h
    exact (h p hvis) (by simp)
  cases hfind : (visiblePackages db u).find? (fun q => q.id == p.id) with
  | none => exact absurd hfind hne
  | some q =>
    have hq1 := List.find?_some hfind
    simp only [beq_iff_eq] at hq1
    have hq2 : q ∈ db.packages :=
      visiblePackages_subset db u q (List.mem_of_find?_eq_some hfind)
    have hq : q = p := mem_id_eq hnd hq2 hmem hq1
    subst hq
    unfold markDelivered
    simp only [hfind, hrole, hbr, not_true_eq_false, if_false, ite_false, ite_true]
    simp only [hdest, ne_eq, not_true_eq_false, if_false, ite_false, ite_true]
    constructor
    · split <;> rfl
    · have hpks := getOrCreateStatus_packages db u "Delivered"
      split <;>
      · dsimp only
        rw [hpks]
        refine List.map_congr_left ?_
        intro a ha
        by_cases h : a.id = q.id
        · have ha2 : a = q := mem_id_eq hnd ha hmem h
          subst ha2
          simp
        · simp [h]

/-- Claim C9: `mark_delivered` imposes no precondition on the current status
of the package.  For any database state with unique package ids, an
authenticated agent whose branch is the destination branch of package `p`
succeeds regardless of the current `status` of `p`; the call sets
`receiver_agent` to the requester and `status` to the `Delivered` status row,
and an immediately repeated call succeeds again. -/
theorem markDelivered_no_status_precondition (db : DB) (u : User) (p : Package)
    (b : Branch)
    (hnd : (db.packages.map Package.id).Nodup)
    (hmem : p ∈ db.packages)
    (hauth : u.isAuthenticated = true)
    (hrole : roleIs u "agent" = true)
    (hbr : u.branch = some b)
    (hdest : p.destinationBranch.id = b.id) :
    (markDelivered db u p.id).2 = none ∧
    (∀ q ∈ (markDelivered db u p.id).1.packages, q.id = p.id →
        q.receiverAgent = some u.id ∧
        q.status = StatusSlot.refv (getOrCreateStatus db u "Delivered").1.id) ∧
    (getOrCreateStatus db u "Delivered").1.name = "Delivered" ∧
    (markDelivered (markDelivered db u p.id).1 u p.id).2 = none := by
  obtain ⟨h1, h2⟩ := markDelivered_success db u p b hnd hmem hauth hrole hbr hdest
  refine ⟨h1, ?_, getOrCreateStatus_fst_name db u "Delivered", ?_⟩
  · intro q hq hid
    rw [h2] at hq
    obtain ⟨a, ha, rfl⟩ := List.mem_map.mp hq
    by_cases h : a.id = p.id
    · simp [h]
    · simp [h] at hid
  · generalize hF : (fun q : Package =>
        if q.id == p.id then
          { q with status := StatusSlot.refv (getOrCreateStatus db u "Delivered").1.id,
                   receiverAgent := some u.id }
        else q) = F at h2
    have hFid : ∀ a : Package, (F a).id = a.id := by
      intro a
      rw [← hF]
      by_cases h : a.id = p.id <;> simp [h]
    have hmem2 : F p ∈ (markDelivered db u p.id).1.packages := by
      rw [h2]
      exact List.mem_map_of_mem F hmem
    have hdest2 : (F p).destinationBranch.id = b.id := by
      rw [← hF]
      simp [hdest]
    have hnd2 : ((markDelivered db u p.id).1.packages.map Package.id).Nodup := by
      rw [h2, List.map_map]
      have heq : List.map (Package.id ∘ F) db.packages = List.map Package.id db.packages :=
        List.map_congr_left (fun a _ => hFid a)
      rw [heq]
      exact hnd
    have hsecond := markDelivered_success (markDelivered db u p.id).1 u (F p) b
      hnd2 hmem2 hauth hrole hbr hdest2
    rw [hFid p] at hsecond
    exact hsecond.1

/-- Witness for C9 at a concrete input: one package (currently in the plain
`pending` state) whose destination branch is the branch of the calling
agent. -/
theorem markDelivered_no_status_precondition_witness :
    ((((⟨[], [], [], [⟨1, "PKG-X", 0, 0, .strv "pending", 5, none,
            ⟨1, 1⟩, ⟨2, 1⟩, "a", "b", "c", "d"⟩], [], 1⟩ : DB)).packages.map
        Package.id).Nodup) ∧
    (markDelivered (⟨[], [], [], [⟨1, "PKG-X", 0, 0, .strv "pending", 5, none,
        ⟨1, 1⟩, ⟨2, 1⟩, "a", "b", "c", "d"⟩], [], 1⟩ : DB)
      (⟨2, some ⟨"agent"⟩, false, true, some 1, some ⟨2, 1⟩⟩ : User) 1).2 = none :=
  ⟨by decide,
   (markDelivered_no_status_precondition
      (⟨[], [], [], [⟨1, "PKG-X", 0, 0, .strv "pending", 5, none,
          ⟨1, 1⟩, ⟨2, 1⟩, "a", "b", "c", "d"⟩], [], 1⟩ : DB)
      (⟨2, some ⟨"agent"⟩, false, true, some 1, some ⟨2, 1⟩⟩ : User)
      ⟨1, "PKG-X", 0, 0, .strv "pending", 5, none, ⟨1, 1⟩, ⟨2, 1⟩, "a", "b", "c", "d"⟩
      ⟨2, 1⟩ (by decide) (by decide) rfl (by decide) rfl rfl).1⟩

/-- Claim C6 counterexample: the claim says every `mark_delivered` call by a
requester who is not an Agent at the destination branch fails with
`Forbidden`; but `self.get_object()` resolves the package against the
role-scoped queryset first, so an agent who is neither sender nor receiver
and whose branch (here the origin branch) is not the destination receives
`notFound` (404), not `permissionDenied` (403). -/
theorem markDelivered_wrong_branch_agent_gets_not_found :
    (markDelivered (⟨[], [], [], [⟨1, "PKG-X", 0, 0, .strv "pending", 5, none,
        ⟨1, 1⟩, ⟨2, 1⟩, "a", "b", "c", "d"⟩], [], 1⟩ : DB)
      (⟨1, some ⟨"agent"⟩, false, true, some 1, some ⟨1, 1⟩⟩ : User) 1).2 =
      some Err.notFound := by decide

/-- Claim C6 (amended): a `mark_delivered` call by a requester who is not an
Agent, or by an Agent whose branch does not match the destination branch of
the addressed package, always fails and performs no mutation at all (the
database is returned unchanged); the failure kind is correlated with the
role-scoped queryset: exactly `notFound` whenever the queryset hides the
addressed package from the requester, and exactly `permissionDenied`
whenever the queryset exposes it. -/
theorem markDelivered_unauthorized_no_mutation (db : DB) (u : User) (pkId : Nat)
    (h : roleIs u "agent" = false ∨
         ∀ p ∈ db.packages, p.id = pkId →
           u.branch.map Branch.id ≠ some p.destinationBranch.id) :
    (markDelivered db u pkId).1 = db ∧
    ((visiblePackages db u).find? (fun p => p.id == pkId) = none →
      (markDelivered db u pkId).2 = some Err.notFound) ∧
    (∀ q, (visiblePackages db u).find? (fun p => p.id == pkId) = some q →
      ∃ m, (markDelivered db u pkId).2 = some (Err.permissionDenied m)) := by
  cases hfind : (visiblePackages db u).find? (fun p => p.id == pkId) with
  | none =>
      have hres : markDelivered db u pkId = (db, some Err.notFound) := by
        unfold markDelivered
        rw [hfind]
      rw [hres]
      exact ⟨rfl, fun _ => rfl, fun q hq => Option.noConfusion hq⟩
  | some q =>
    have hq2 : q ∈ db.packages :=
      visiblePackages_subset db u q (List.mem_of_find?_eq_some hfind)
    have hq1 := List.find?_some hfind
    simp only [beq_iff_eq] at hq1
    have hres : ∃ m, markDelivered db u pkId = (db, some (Err.permissionDenied m)) := by
      unfold markDelivered
      rw [hfind]
      dsimp only
      by_cases hrole : roleIs u "agent" = true
      · cases h with
        | inl h0 => rw [h0] at hrole; exact absurd hrole (by simp)
        | inr h0 =>
          have hmm := h0 q hq2 hq1
          simp only [hrole, not_true_eq_false, if_false, ite_false, ite_true]
          cases hbr : u.branch with
          | none => exact ⟨_, rfl⟩
          | some b =>
            have hne : q.destinationBranch.id ≠ b.id := by
              intro hX
              rw [hbr] at hmm
              simp [hX] at hmm
            dsimp only
            rw [if_pos hne]
            exact ⟨_, rfl⟩
      · simp only [Bool.not_eq_true] at hrole
        simp only [hrole, Bool.false_eq_true, not_false_eq_true, if_true, ite_true]
        exact ⟨_, rfl⟩
    obtain ⟨m, hm⟩ := hres
    rw [hm]
    exact ⟨rfl, fun hX => Option.noConfusion hX, fun q2 _ => ⟨m, rfl⟩⟩

/-- Witness for C6 (amended) at a concrete input: a branch admin (not an
Agent) whose queryset exposes the package gets exactly `permissionDenied`
and no mutation. -/
theorem markDelivered_unauthorized_no_mutation_witness :
    (markDelivered (⟨[], [], [], [⟨1, "PKG-X", 0, 0, .strv "pending", 5, none,
        ⟨1, 1⟩, ⟨2, 1⟩, "a", "b", "c", "d"⟩], [], 1⟩ : DB)
      (⟨3, some ⟨"Branch Admin"⟩, false, true, some 1, some ⟨2, 1⟩⟩ : User) 1).1 =
      (⟨[], [], [], [⟨1, "PKG-X", 0, 0, .strv "pending", 5, none,
        ⟨1, 1⟩, ⟨2, 1⟩, "a", "b", "c", "d"⟩], [], 1⟩ : DB) ∧
    (∃ m, (markDelivered (⟨[], [], [], [⟨1, "PKG-X", 0, 0, .strv "pending", 5, none,
        ⟨1, 1⟩, ⟨2, 1⟩, "a", "b", "c", "d"⟩], [], 1⟩ : DB)
      (⟨3, some ⟨"Branch Admin"⟩, false, true, some 1, some ⟨2, 1⟩⟩ : User) 1).2 =
        some (Err.permissionDenied m)) :=
  ⟨(markDelivered_unauthorized_no_mutation
      (⟨[], [], [], [⟨1, "PKG-X", 0, 0, .strv "pending", 5, none,
          ⟨1, 1⟩, ⟨2, 1⟩, "a", "b", "c", "d"⟩], [], 1⟩ : DB)
      (⟨3, some ⟨"Branch Admin"⟩, false, true, some 1, some ⟨2, 1⟩⟩ : User) 1
      (Or.inl (by decide))).1,
   (markDelivered_unauthorized_no_mutation
      (⟨[], [], [], [⟨1, "PKG-X", 0, 0, .strv "pending", 5, none,
          ⟨1, 1⟩, ⟨2, 1⟩, "a", "b", "c", "d"⟩], [], 1⟩ : DB)
      (⟨3, some ⟨"Branch Admin"⟩, false, true, some 1, some ⟨2, 1⟩⟩ : User) 1
      (Or.inl (by decide))).2.2
     ⟨1, "PKG-X", 0, 0, .strv "pending", 5, none,
       ⟨1, 1⟩, ⟨2, 1⟩, "a", "b", "c", "d"⟩ (by decide)⟩

/-- Claim C4: an intake request by an agent whose payload passes the
serializer (parseable value, destination branch present) and the contact
checks, but whose destination branch belongs to a company other than the
company of the requesting agent, fails with `invalidInput` keyed
`destination_branch` and leaves the database unchanged (zero Package and
zero Ticket rows created). -/
theorem intake_cross_company_rejected (db : DB) (u : User) (r : RawIntake)
    (now : Int) (tn tc : String) (pid tid : Nat) (br : Branch)
    (hrole : roleIs u "agent" = true)
    (hbr : r.destinationBranch = some br)
    (hcc : u.company ≠ some br.company) :
    ((intake db u r now tn tc pid tid).1 = db ∧
     (intake db u r now tn tc pid tid).2 ≠ none) ∧
    (r.value.isSome = true → r.senderName ≠ "" → r.senderPhone ≠ "" →
     r.receiverName ≠ "" → r.receiverPhone ≠ "" →
     intake db u r now tn tc pid tid =
       (db, some (Err.invalidInput (some "destination_branch")
         "Destination branch must belong to your company."))) := by
  constructor
  · unfold intake
    rw [hbr, if_neg (by simp [hrole])]
    cases hval : r.value with
    | none => exact ⟨rfl, fun h => Option.noConfusion h⟩
    | some v =>
      dsimp only
      by_cases hs : (r.senderName == "" || r.senderPhone == "") = true
      · rw [if_pos hs]
        exact ⟨rfl, fun h => Option.noConfusion h⟩
      · rw [if_neg hs]
        by_cases hrc : (r.receiverName == "" || r.receiverPhone == "") = true
        · rw [if_pos hrc]
          exact ⟨rfl, fun h => Option.noConfusion h⟩
        · rw [if_neg hrc]
          cases hc : u.company with
          | none => exact ⟨rfl, fun h => Option.noConfusion h⟩
          | some c =>
            dsimp only
            have hne : br.company ≠ c := fun hX => hcc (by rw [hc, hX])
            rw [if_pos hne]
            exact ⟨rfl, fun h => Option.noConfusion h⟩
  · intro hv hs1 hs2 hr1 hr2
    obtain ⟨v, hv2⟩ := Option.isSome_iff_exists.mp hv
    unfold intake
    rw [hv2, hbr]
    simp only [hrole, not_true_eq_false, if_false, ite_false, ite_true,
      beq_eq_false_iff_ne, Bool.or_eq_true, beq_iff_eq]
    rw [if_neg (by simp [hs1, hs2]), if_neg (by simp [hr1, hr2])]
    cases hc : u.company with
    | none => rfl
    | some c =>
        have : br.company ≠ c := by
          intro hX
          exact hcc (by rw [hc, hX])
        dsimp only
        rw [if_pos this]

/-- Witness for C4 at a concrete input: an agent of company 1 addressing a
destination branch of company 2. -/
theorem intake_cross_company_rejected_witness :
    intake (⟨[⟨1, 1⟩], [⟨2, 1, 1⟩], [], [], [], 1⟩ : DB)
        (⟨1, some ⟨"Agent"⟩, false, true, some 1, some ⟨1, 1⟩⟩ : User)
        (⟨"S", "0788", "R", "0789", some ⟨3, 2⟩, some 100000, some 1, some 2,
          some 10, none⟩ : RawIntake) 0 "PKG-C" "TCK-C" 1 1 =
      ((⟨[⟨1, 1⟩], [⟨2, 1, 1⟩], [], [], [], 1⟩ : DB),
       some (Err.invalidInput (some "destination_branch")
        "Destination branch must belong to your company.")) :=
  (intake_cross_company_rejected (⟨[⟨1, 1⟩], [⟨2, 1, 1⟩], [], [], [], 1⟩ : DB)
    (⟨1, some ⟨"Agent"⟩, false, true, some 1, some ⟨1, 1⟩⟩ : User)
    (⟨"S", "0788", "R", "0789", some ⟨3, 2⟩, some 100000, some 1, some 2,
      some 10, none⟩ : RawIntake) 0 "PKG-C" "TCK-C" 1 1 ⟨3, 2⟩
    (by decide) rfl (by decide)).2
    (by decide) (by decide) (by decide) (by decide) (by decide)

/-- Claim C5 counterexample: the claim says any negative declared value is
rejected with `invalidInput` keyed `value`; but `perform_create` only guards
against `InvalidOperation` when converting, and neither the serializer
`DecimalField` nor the view checks the sign, so a declared value of
`-100.00` is accepted: intake succeeds and stores `shipping_fee = -10.00`
(here in cents). -/
theorem intake_negative_value_accepted :
    (intake (⟨[⟨1, 1⟩], [⟨2, 1, 1⟩], [], [], [], 1⟩ : DB)
        (⟨1, some ⟨"Agent"⟩, false, true, some 1, some ⟨1, 1⟩⟩ : User)
        (⟨"S", "0788", "R", "0789", some ⟨2, 1⟩, some (-10000), some 1, some 2,
          some 10, none⟩ : RawIntake) 0 "PKG-D" "TCK-D" 1 1).2 = none ∧
    ((intake (⟨[⟨1, 1⟩], [⟨2, 1, 1⟩], [], [], [], 1⟩ : DB)
        (⟨1, some ⟨"Agent"⟩, false, true, some 1, some ⟨1, 1⟩⟩ : User)
        (⟨"S", "0788", "R", "0789", some ⟨2, 1⟩, some (-10000), some 1, some 2,
          some 10, none⟩ : RawIntake) 0 "PKG-D" "TCK-D" 1 1).1.packages.map
      Package.shippingFee) = [-1000] := by decide

/-- Claim C5 (amended): a declared value that does not parse as a decimal is
rejected with `invalidInput` keyed `value` and nothing is created; a
parseable negative value, however, is not rejected. -/
theorem intake_unparseable_value_rejected (db : DB) (u : User) (r : RawIntake)
    (now : Int) (tn tc : String) (pid tid : Nat)
    (hrole : roleIs u "agent" = true)
    (hv : r.value = none) :
    intake db u r now tn tc pid tid =
      (db, some (Err.invalidInput (some "value") "A valid number is required.")) := by
  unfold intake
  rw [hv]
  simp [hrole]

/-- Witness for C5 (amended) at a concrete input: a request whose declared
value failed to parse. -/
theorem intake_unparseable_value_rejected_witness :
    intake (⟨[⟨1, 1⟩], [⟨2, 1, 1⟩], [], [], [], 1⟩ : DB)
        (⟨1, some ⟨"Agent"⟩, false, true, some 1, some ⟨1, 1⟩⟩ : User)
        (⟨"S", "0788", "R", "0789", some ⟨2, 1⟩, none, some 1, some 2,
          some 10, none⟩ : RawIntake) 0 "PKG-E" "TCK-E" 1 1 =
      ((⟨[⟨1, 1⟩], [⟨2, 1, 1⟩], [], [], [], 1⟩ : DB),
       some (Err.invalidInput (some "value") "A valid number is required.")) :=
  intake_unparseable_value_rejected (⟨[⟨1, 1⟩], [⟨2, 1, 1⟩], [], [], [], 1⟩ : DB)
    (⟨1, some ⟨"Agent"⟩, false, true, some 1, some ⟨1, 1⟩⟩ : User)
    (⟨"S", "0788", "R", "0789", some ⟨2, 1⟩, none, some 1, some 2,
      some 10, none⟩ : RawIntake) 0 "PKG-E" "TCK-E" 1 1 (by decide) rfl

set_option maxHeartbeats 1600000 in
/-- Claim C3: every successful intake with declared value `v` stores
`shipping_fee = round(v * 0.10, 2)` (half-to-even, the Python `Decimal`
default; here on cents, `roundHalfEvenDiv10`) on the created package, the
created ticket carries `amount_paid` equal to that same fee, and a
client-supplied `shipping_fee` is ignored: the result of intake does not
depend on the `clientShippingFee` field at all (the serializer declares the
field `read_only` and `serializer.save` overrides it). -/
theorem intake_fee_derivation (db : DB) (u : User) (r : RawIntake)
    (now : Int) (tn tc : String) (pid tid : Nat) (v : Int)
    (hv : r.value = some v)
    (hok : (intake db u r now tn tc pid tid).2 = none) :
    ((intake db u r now tn tc pid tid).1.packages.getLast?.map Package.shippingFee
       = some (roundHalfEvenDiv10 v)) ∧
    ((intake db u r now tn tc pid tid).1.tickets.getLast?.map Ticket.amountPaid
       = some (roundHalfEvenDiv10 v)) ∧
    (∀ fee, intake db u { r with clientShippingFee := fee } now tn tc pid tid
       = intake db u r now tn tc pid tid) := by
  have key : ((intake db u r now tn tc pid tid).1.packages.getLast?.map
        Package.shippingFee = some (roundHalfEvenDiv10 v)) ∧
      ((intake db u r now tn tc pid tid).1.tickets.getLast?.map
        Ticket.amountPaid = some (roundHalfEvenDiv10 v)) := by
    rcases hE : intake db u r now tn tc pid tid with ⟨db2, e⟩
    have he : e = none := by rw [hE] at hok; simpa using hok
    subst he
    unfold intake at hE
    rw [hv] at hE
    repeat
      first
      | (split at hE <;>
          try (exact absurd hE (fun hX => Option.noConfusion (congrArg Prod.snd hX))))
      | dsimp only at hE
    injection hE with h1 h2
    subst h1
    simp [List.getLast?_concat]
  exact ⟨key.1, key.2, fun fee => rfl⟩

/-- Witness for C3 at a concrete input: declared value 1000.00 (100000
cents) yields a stored fee of 100.00 (10000 cents) on both rows. -/
theorem intake_fee_derivation_witness :
    ((intake (⟨[⟨1, 1⟩], [⟨2, 1, 1⟩], [], [], [], 1⟩ : DB)
        (⟨1, some ⟨"Agent"⟩, false, true, some 1, some ⟨1, 1⟩⟩ : User)
        (⟨"S", "0788", "R", "0789", some ⟨2, 1⟩, some 100000, some 1, some 2,
          some 10, none⟩ : RawIntake) 0 "PKG-A" "TCK-A" 1 1).1.packages.getLast?.map
      Package.shippingFee = some (roundHalfEvenDiv10 100000)) ∧
    ((intake (⟨[⟨1, 1⟩], [⟨2, 1, 1⟩], [], [], [], 1⟩ : DB)
        (⟨1, some ⟨"Agent"⟩, false, true, some 1, some ⟨1, 1⟩⟩ : User)
        (⟨"S", "0788", "R", "0789", some ⟨2, 1⟩, some 100000, some 1, some 2,
          some 10, none⟩ : RawIntake) 0 "PKG-A" "TCK-A" 1 1).1.tickets.getLast?.map
      Ticket.amountPaid = some (roundHalfEvenDiv10 100000)) :=
  ⟨(intake_fee_derivation (⟨[⟨1, 1⟩], [⟨2, 1, 1⟩], [], [], [], 1⟩ : DB)
      (⟨1, some ⟨"Agent"⟩, false, true, some 1, some ⟨1, 1⟩⟩ : User)
      (⟨"S", "0788", "R", "0789", some ⟨2, 1⟩, some 100000, some 1, some 2,
        some 10, none⟩ : RawIntake) 0 "PKG-A" "TCK-A" 1 1 100000 rfl
      (by decide)).1,
   (intake_fee_derivation (⟨[⟨1, 1⟩], [⟨2, 1, 1⟩], [], [], [], 1⟩ : DB)
      (⟨1, some ⟨"Agent"⟩, false, true, some 1, some ⟨1, 1⟩⟩ : User)
      (⟨"S", "0788", "R", "0789", some ⟨2, 1⟩, some 100000, some 1, some 2,
        some 10, none⟩ : RawIntake) 0 "PKG-A" "TCK-A" 1 1 100000 rfl
      (by decide)).2.1⟩

/-- Claim C1 evaluation at the failing input: `perform_create` runs in
autocommit (no `transaction.atomic`), so when `Ticket.objects.create` raises
after the package save — here via the unique constraint on `ticket_code`,
because a ticket with the freshly generated code already exists — the
handler re-raises a `ValidationError`, yet the new Package row (id 2)
persists with no companion Ticket: the package count went from 0 to 1 and
the only ticket still belongs to package 99. -/
theorem intake_ticket_failure_keeps_package :
    ((intake (⟨[⟨1, 1⟩], [⟨2, 1, 1⟩], [],
        [], [⟨7, "TCK-A", 99, 1, 2, ⟨1, 1⟩, 1, 5, 0, "sent"⟩], 1⟩ : DB)
        (⟨1, some ⟨"Agent"⟩, false, true, some 1, some ⟨1, 1⟩⟩ : User)
        (⟨"S", "0788", "R", "0789", some ⟨2, 1⟩, some 100000, some 1, some 2,
          some 10, none⟩ : RawIntake) 0 "PKG-A" "TCK-A" 2 2).2 =
      some (Err.invalidInput (some "error") "Failed to create package.")) ∧
    ((intake (⟨[⟨1, 1⟩], [⟨2, 1, 1⟩], [],
        [], [⟨7, "TCK-A", 99, 1, 2, ⟨1, 1⟩, 1, 5, 0, "sent"⟩], 1⟩ : DB)
        (⟨1, some ⟨"Agent"⟩, false, true, some 1, some ⟨1, 1⟩⟩ : User)
        (⟨"S", "0788", "R", "0789", some ⟨2, 1⟩, some 100000, some 1, some 2,
          some 10, none⟩ : RawIntake) 0 "PKG-A" "TCK-A" 2 2).1.packages.map
      Package.id = [2]) ∧
    ((intake (⟨[⟨1, 1⟩], [⟨2, 1, 1⟩], [],
        [], [⟨7, "TCK-A", 99, 1, 2, ⟨1, 1⟩, 1, 5, 0, "sent"⟩], 1⟩ : DB)
        (⟨1, some ⟨"Agent"⟩, false, true, some 1, some ⟨1, 1⟩⟩ : User)
        (⟨"S", "0788", "R", "0789", some ⟨2, 1⟩, some 100000, some 1, some 2,
          some 10, none⟩ : RawIntake) 0 "PKG-A" "TCK-A" 2 2).1.tickets.map
      Ticket.package = [99]) := by decide

/-- Claim C2 evaluation at the failing input: `perform_create` comments
"Validate vehicle belongs to the specified driver" but only compares
`vehicle.company` with the agent company; a request naming driver 1 and
vehicle 1 — a same-company vehicle whose `driver` foreign key is driver 2 —
is accepted, and the created ticket pairs driver 1 with vehicle 1 even
though vehicle 1 belongs to driver 2 (`vehicle.driver != driver`). -/
theorem intake_vehicle_driver_unchecked :
    ((intake (⟨[⟨1, 1⟩, ⟨2, 1⟩], [⟨1, 1, 2⟩], [], [], [], 1⟩ : DB)
        (⟨1, some ⟨"Agent"⟩, false, true, some 1, some ⟨1, 1⟩⟩ : User)
        (⟨"S", "0788", "R", "0789", some ⟨2, 1⟩, some 100000, some 1, some 1,
          some 10, none⟩ : RawIntake) 0 "PKG-B" "TCK-B" 1 1).2 = none) ∧
    ((intake (⟨[⟨1, 1⟩, ⟨2, 1⟩], [⟨1, 1, 2⟩], [], [], [], 1⟩ : DB)
        (⟨1, some ⟨"Agent"⟩, false, true, some 1, some ⟨1, 1⟩⟩ : User)
        (⟨"S", "0788", "R", "0789", some ⟨2, 1⟩, some 100000, some 1, some 1,
          some 10, none⟩ : RawIntake) 0 "PKG-B" "TCK-B" 1 1).1.tickets.map
      (fun t => (t.driver, t.vehicle)) = [(1, 1)]) ∧
    (((⟨[⟨1, 1⟩, ⟨2, 1⟩], [⟨1, 1, 2⟩], [], [], [], 1⟩ : DB)).vehicles.map
      (fun w => (w.id, w.driver)) = [(1, 2)]) := by decide

/-- Claim C10: a ticket status never becomes `pending` through the core
operations: every ticket produced by intake that was not already in the
store is created with status `sent`; and both `mark_delivered` and
`update_status` preserve the absence of `pending` tickets (the former only
writes `delivered`, the latter only accepts `sent`, `received`,
`delivered`). -/
theorem ticket_status_never_pending :
    (∀ db u r now tn tc pid tid t,
        t ∈ (intake db u r now tn tc pid tid).1.tickets →
        t ∈ db.tickets ∨ t.status = "sent") ∧
    (∀ db u pkId, noPendingTickets db →
        noPendingTickets (markDelivered db u pkId).1) ∧
    (∀ db u tkId s, noPendingTickets db →
        noPendingTickets (updateTicketStatus db u tkId s).1) := by
  refine ⟨?_, ?_, ?_⟩
  · intro db u r now tn tc pid tid t
    unfold intake
    repeat' first | split | dsimp only
    all_goals intro ht
    all_goals
      first
      | exact Or.inl ht
      | (rw [getOrCreateStatus_tickets] at ht; exact Or.inl ht)
      | (rw [getOrCreateStatus_tickets] at ht
         rcases List.mem_append.mp ht with h | h
         · exact Or.inl h
         · apply Or.inr
           have h2 := List.mem_singleton.mp h
           rw [h2])
  · intro db u pkId hnp
    unfold markDelivered
    repeat' first | split | dsimp only
    all_goals intro t ht
    · exact hnp t ht
    · exact hnp t ht
    · exact hnp t ht
    · exact hnp t ht
    · rw [getOrCreateStatus_tickets] at ht
      obtain ⟨a, ha, rfl⟩ := List.mem_map.mp ht
      split
      · intro hX
        dsimp only at hX
        exact absurd hX (by decide)
      · exact hnp a ha
    · rw [getOrCreateStatus_tickets] at ht
      exact hnp t ht
  · intro db u tkId s hnp
    unfold updateTicketStatus
    repeat' first | split | dsimp only
    all_goals intro t ht
    · exact hnp t ht
    · rename_i ns s0 hcond
      obtain ⟨a, ha, rfl⟩ := List.mem_map.mp ht
      split
      · intro hX
        dsimp only at hX
        simp only [Bool.or_eq_true, beq_iff_eq, Option.some.injEq] at hcond
        rcases hcond with (h | h) | h <;> rw [h] at hX <;> exact absurd hX (by decide)
      · exact hnp a ha
    · exact hnp t ht
    · exact hnp t ht

/-- Witness for C10 at a concrete input: a store holding one `sent` ticket
still holds no `pending` ticket after `update-status` to `received` and
after `mark_delivered`. -/
theorem ticket_status_never_pending_witness :
    noPendingTickets (⟨[], [], [], [],
      [⟨1, "TCK-A", 1, 1, 1, ⟨1, 1⟩, 1, 5, 0, "sent"⟩], 1⟩ : DB) ∧
    noPendingTickets (updateTicketStatus (⟨[], [], [], [],
      [⟨1, "TCK-A", 1, 1, 1, ⟨1, 1⟩, 1, 5, 0, "sent"⟩], 1⟩ : DB)
      (⟨9, none, true, true, none, none⟩ : User) 1 (some "received")).1 ∧
    noPendingTickets (markDelivered (⟨[], [], [], [],
      [⟨1, "TCK-A", 1, 1, 1, ⟨1, 1⟩, 1, 5, 0, "sent"⟩], 1⟩ : DB)
      (⟨9, none, true, true, none, none⟩ : User) 1).1 :=
  ⟨by unfold noPendingTickets; decide,
   ticket_status_never_pending.2.2 (⟨[], [], [], [],
      [⟨1, "TCK-A", 1, 1, 1, ⟨1, 1⟩, 1, 5, 0, "sent"⟩], 1⟩ : DB)
     (⟨9, none, true, true, none, none⟩ : User) 1 (some "received")
     (by unfold noPendingTickets; decide),
   ticket_status_never_pending.2.1 (⟨[], [], [], [],
      [⟨1, "TCK-A", 1, 1, 1, ⟨1, 1⟩, 1, 5, 0, "sent"⟩], 1⟩ : DB)
     (⟨9, none, true, true, none, none⟩ : User) 1
     (by unfold noPendingTickets; decide)⟩

/-- Claim C8: `update-status` on a resolvable ticket rejects every new
status outside `sent`, `received`, `delivered` with `invalidInput` keyed
`status` naming the allowed set and leaves the store unchanged; the package
table is never touched by this endpoint; and on success exactly the
addressed ticket has its status replaced and nothing else changes in the
ticket table. -/
theorem updateTicketStatus_validation_and_frame (db : DB) (u : User)
    (tkId : Nat) (s : Option String) :
    ((updateTicketStatus db u tkId s).1.packages = db.packages) ∧
    (∀ t, (visibleTickets db u).find? (fun x => x.id == tkId) = some t →
       s ≠ some "sent" → s ≠ some "received" → s ≠ some "delivered" →
       updateTicketStatus db u tkId s =
         (db, some (Err.invalidInput (some "status")
           "Status must be one of [sent, received, delivered]"))) ∧
    ((updateTicketStatus db u tkId s).2 = none →
       ∃ v, s = some v ∧
         (updateTicketStatus db u tkId s).1.tickets =
           db.tickets.map (fun t =>
             if t.id == tkId then { t with status := v } else t)) := by
  refine ⟨?_, ?_, ?_⟩
  · unfold updateTicketStatus
    repeat' first | split | dsimp only
  · intro t hfind h1 h2 h3
    unfold updateTicketStatus
    rw [hfind]
    have hcond : (s == some "sent" || s == some "received" ||
        s == some "delivered") = false := by
      simp [h1, h2, h3]
    rw [hcond]
    rfl
  · intro hok
    rcases hE : updateTicketStatus db u tkId s with ⟨db2, e⟩
    have he : e = none := by rw [hE] at hok; simpa using hok
    subst he
    unfold updateTicketStatus at hE
    repeat
      first
      | (split at hE <;>
          try (exact absurd hE (fun hX => Option.noConfusion (congrArg Prod.snd hX))))
      | dsimp only at hE
    injection hE with h1 h2
    subst h1
    exact ⟨_, rfl, rfl⟩

/-- Witness for C8 at a concrete input: a superuser sending the status
`bogus` for an existing ticket gets the field-keyed rejection and the store
is unchanged. -/
theorem updateTicketStatus_validation_and_frame_witness :
    updateTicketStatus (⟨[], [], [], [],
        [⟨1, "TCK-A", 1, 1, 1, ⟨1, 1⟩, 1, 5, 0, "sent"⟩], 1⟩ : DB)
      (⟨9, none, true, true, none, none⟩ : User) 1 (some "bogus") =
      ((⟨[], [], [], [], [⟨1, "TCK-A", 1, 1, 1, ⟨1, 1⟩, 1, 5, 0, "sent"⟩], 1⟩ : DB),
       some (Err.invalidInput (some "status")
         "Status must be one of [sent, received, delivered]")) :=
  (updateTicketStatus_validation_and_frame (⟨[], [], [], [],
      [⟨1, "TCK-A", 1, 1, 1, ⟨1, 1⟩, 1, 5, 0, "sent"⟩], 1⟩ : DB)
    (⟨9, none, true, true, none, none⟩ : User) 1 (some "bogus")).2.1
    ⟨1, "TCK-A", 1, 1, 1, ⟨1, 1⟩, 1, 5, 0, "sent"⟩
    (by decide) (by decide) (by decide) (by decide)

/-- Claim C7 counterexample: the section 4.4 table says a superuser sees all
packages, but `PackageViewSet.get_queryset` has no `is_superuser` branch —
only the literal role name `system admin` grants the all-packages queryset —
so a superuser with no role record sees no packages while the table grants
all. -/
theorem superuser_without_role_sees_no_packages :
    (visiblePackages (⟨[], [], [], [⟨1, "PKG-X", 0, 0, .strv "pending", 5, none,
        ⟨1, 1⟩, ⟨2, 1⟩, "a", "b", "c", "d"⟩], [], 1⟩ : DB)
      (⟨9, none, true, true, none, none⟩ : User) = []) ∧
    (specVisiblePackages (⟨[], [], [], [⟨1, "PKG-X", 0, 0, .strv "pending", 5, none,
        ⟨1, 1⟩, ⟨2, 1⟩, "a", "b", "c", "d"⟩], [], 1⟩ : DB)
      (⟨9, none, true, true, none, none⟩ : User) =
      [⟨1, "PKG-X", 0, 0, .strv "pending", 5, none,
        ⟨1, 1⟩, ⟨2, 1⟩, "a", "b", "c", "d"⟩]) := by decide

/-- Claim C7 (amended): the role-scoped querysets return exactly the rows of
the section 4.4 table for every requester that is (a) a superuser exactly
when their role is `system admin` — the code keys the all-packages row off
the role name only and the all-tickets row off `is_superuser` only — and
(b) whose own `company` field agrees with the company of their branch — the
code scopes agent ticket visibility by `user.company` where the table reads
`requester.branch.company`. -/
theorem visibility_matches_spec_table (db : DB) (u : User)
    (h1 : u.isSuperuser = roleIs u "system admin")
    (h2 : u.company = u.branch.map Branch.company) :
    visiblePackages db u = specVisiblePackages db u ∧
    visibleTickets db u = specVisibleTickets db u := by
  have hexc : ∀ a b : String, a ≠ b → roleIs u a = true → roleIs u b = false := by
    intro a b hab ha
    unfold roleIs at ha ⊢
    cases hr : u.role with
    | none => rfl
    | some r =>
        rw [hr] at ha
        dsimp only
        simp only [beq_iff_eq] at ha
        rw [ha]
        exact beq_eq_false_iff_ne.mpr hab
  constructor
  · unfold visiblePackages specVisiblePackages
    rw [h1, Bool.or_self]
  · unfold visibleTickets specVisibleTickets
    split
    · rfl
    · rename_i hau
      split
      · rename_i hsup
        have hsa : roleIs u "system admin" = true := by rw [← h1]; exact hsup
        have hag := hexc "system admin" "agent" (by decide) hsa
        have hba := hexc "system admin" "branch admin" (by decide) hsa
        have hca := hexc "system admin" "company admin" (by decide) hsa
        simp [hag, hba, hca, hsa, hsup]
      · rename_i hsup
        simp only [Bool.not_eq_true] at hsup
        have hsa : roleIs u "system admin" = false := by rw [← h1]; exact hsup
        split
        · rename_i hag
          cases hb : u.branch with
          | none =>
              have hc : u.company = none := by rw [h2, hb]; rfl
              rw [hc]
              exact List.filter_congr (fun x _ => rfl)
          | some b =>
              have hc : u.company = some b.company := by rw [h2, hb]; rfl
              rw [hc]
              exact List.filter_congr (fun x _ => rfl)
        · split
          · rfl
          · split
            · rfl
            · simp [hsa, hsup]

/-- Witness for C7 (amended) at a concrete input: a company admin whose
company field matches their branch sees, by both definitions, exactly the
tickets of company 1. -/
theorem visibility_matches_spec_table_witness :
    visiblePackages (⟨[], [], [], [⟨1, "PKG-X", 0, 0, .strv "pending", 5, none,
        ⟨1, 1⟩, ⟨2, 1⟩, "a", "b", "c", "d"⟩],
      [⟨1, "TCK-A", 1, 1, 1, ⟨1, 1⟩, 1, 5, 0, "sent"⟩], 1⟩ : DB)
      (⟨4, some ⟨"Company Admin"⟩, false, true, some 1, some ⟨1, 1⟩⟩ : User) =
      specVisiblePackages (⟨[], [], [], [⟨1, "PKG-X", 0, 0, .strv "pending", 5, none,
        ⟨1, 1⟩, ⟨2, 1⟩, "a", "b", "c", "d"⟩],
      [⟨1, "TCK-A", 1, 1, 1, ⟨1, 1⟩, 1, 5, 0, "sent"⟩], 1⟩ : DB)
      (⟨4, some ⟨"Company Admin"⟩, false, true, some 1, some ⟨1, 1⟩⟩ : User) ∧
    visibleTickets (⟨[], [], [], [⟨1, "PKG-X", 0, 0, .strv "pending", 5, none,
        ⟨1, 1⟩, ⟨2, 1⟩, "a", "b", "c", "d"⟩],
      [⟨1, "TCK-A", 1, 1, 1, ⟨1, 1⟩, 1, 5, 0, "sent"⟩], 1⟩ : DB)
      (⟨4, some ⟨"Company Admin"⟩, false, true, some 1, some ⟨1, 1⟩⟩ : User) =
      specVisibleTickets (⟨[], [], [], [⟨1, "PKG-X", 0, 0, .strv "pending", 5, none,
        ⟨1, 1⟩, ⟨2, 1⟩, "a", "b", "c", "d"⟩],
      [⟨1, "TCK-A", 1, 1, 1, ⟨1, 1⟩, 1, 5, 0, "sent"⟩], 1⟩ : DB)
      (⟨4, some ⟨"Company Admin"⟩, false, true, some 1, some ⟨1, 1⟩⟩ : User) :=
  visibility_matches_spec_table (⟨[], [], [], [⟨1, "PKG-X", 0, 0, .strv "pending", 5,
      none, ⟨1, 1⟩, ⟨2, 1⟩, "a", "b", "c", "d"⟩],
    [⟨1, "TCK-A", 1, 1, 1, ⟨1, 1⟩, 1, 5, 0, "sent"⟩], 1⟩ : DB)
    (⟨4, some ⟨"Company Admin"⟩, false, true, some 1, some ⟨1, 1⟩⟩ : User)
    (by decide) (by decide)

end PkgMgmt
